import Mathlib

/-!
Verification of slickreporter.py (slickqa/slick-reporter).

This file shallowly embeds the data model and the operations of
`src/slickreporter.py`: the `Slick` context-resolution class
(`init_project`, `init_release`, `init_build`, `init_component`,
`init_testplan`, `init_testrun`, `finish_testrun`, `file_result`), the
`CommandTester` output classifier (`run_command`), and the `main`
control flow with its try/except/finally discipline.

Python's `re` module is embedded as a small backtracking engine over an
explicit regex AST (`Re`), with Python's priority semantics: greedy
quantifiers prefer longer matches, lazy quantifiers prefer shorter ones,
`(?:...)?` prefers presence, `re.match` is anchored at the start of the
string, `re.search` tries successive start offsets.  Named capture
groups are numbered as Python numbers them; a group that did not
participate in the match is absent from the capture list, which models
Python's `None` entry in `groupdict()`.

Remote-service interaction (the slickqa client) is modelled by explicit
data: lookups are inputs, creations are counted and return
locally-constructed entities carrying a caller-chosen fresh id, exactly
mirroring which calls the source issues on each control path.
-/

deriving instance DecidableEq for Except

namespace SlickReporter

/-! ## Python regular expressions (the fragment used by slickreporter) -/

/-- Regex AST covering the constructs appearing in slickreporter's
configured patterns: literal characters, `.`, `\d`, concatenation,
greedy and lazy `*`, greedy `?`, and (named) capture groups. -/
inductive Re
  | eps
  | ch (c : Char)
  | any
  | digit
  | seq (a b : Re)
  | opt (a : Re)
  | starG (a : Re)
  | starL (a : Re)
  | grp (i : Nat) (a : Re)
deriving DecidableEq, Repr

/-- Captures: most recent first; a group that never participated has no
entry (Python `None`). -/
def Caps := List (Nat × List Char)
deriving DecidableEq, Repr

def capLookup : Caps → Nat → Option (List Char)
  | [], _ => none
  | (j, v) :: rest, i => if j = i then some v else capLookup rest i

def reSize : Re → Nat
  | .eps => 1
  | .ch _ => 1
  | .any => 1
  | .digit => 1
  | .seq a b => reSize a + reSize b + 1
  | .opt a => reSize a + 1
  | .starG a => reSize a + 1
  | .starL a => reSize a + 1
  | .grp _ a => reSize a + 1

/-- Backtracking matcher in continuation-passing style.  Alternatives are
tried in Python's priority order; the continuation receives the
remaining input and the captures accumulated so far.  The fuel bounds
call nesting; `reFuel` below is always sufficient for the patterns and
inputs of this development. -/
def runRe : Nat → Re → List Char → Caps → (List Char → Caps → Option Caps) → Option Caps
  | 0, _, _, _, _ => none
  | Nat.succ fuel, r, s, caps, k =>
    match r with
    | .eps => k s caps
    | .ch c =>
      match s with
      | [] => none
      | x :: rest => if x = c then k rest caps else none
    | .any =>
      match s with
      | [] => none
      | x :: rest => if x = '\n' then none else k rest caps
    | .digit =>
      match s with
      | [] => none
      | x :: rest => if x.isDigit then k rest caps else none
    | .seq a b => runRe fuel a s caps (fun s2 c2 => runRe fuel b s2 c2 k)
    | .opt a =>
      match runRe fuel a s caps k with
      | some res => some res
      | none => k s caps
    | .starG a =>
      match runRe fuel a s caps (fun s2 c2 =>
          if s2.length < s.length then runRe fuel (.starG a) s2 c2 k else none) with
      | some res => some res
      | none => k s caps
    | .starL a =>
      match k s caps with
      | some res => some res
      | none => runRe fuel a s caps (fun s2 c2 =>
          if s2.length < s.length then runRe fuel (.starL a) s2 c2 k else none)
    | .grp i a => runRe fuel a s caps (fun s2 c2 =>
        k s2 ((i, s.take (s.length - s2.length)) :: c2))

def reFuel (r : Re) (s : List Char) : Nat :=
  (s.length + 1) * (reSize r + 2) + reSize r + 2

/-- A compiled Python pattern: the AST plus the named-group table
(Python's name-to-number mapping) and the number of groups. -/
structure PyRegex where
  re : Re
  names : List (String × Nat)
  groupCount : Nat
deriving DecidableEq, Repr

/-- `re.match`: anchored at the start of the string. -/
def pyMatch (p : PyRegex) (line : String) : Option Caps :=
  runRe (reFuel p.re line.data) p.re line.data [] (fun _ c => some c)

/-- `re.search`: try each start offset in turn, leftmost match wins. -/
def reSearch (r : Re) : List Char → Option Caps
  | [] => runRe (reFuel r []) r [] [] (fun _ c => some c)
  | x :: rest =>
    match runRe (reFuel r (x :: rest)) r (x :: rest) [] (fun _ c => some c) with
    | some c => some c
    | none => reSearch r rest

/-- Literal string as a regex. -/
def reLit (s : String) : Re :=
  s.data.foldr (fun c r => Re.seq (Re.ch c) r) Re.eps

/-- `\d+` -/
def reDigits : Re := Re.seq Re.digit (Re.starG Re.digit)

/-- `match.groups()`: positional captures 1..n, `none` for a group that
did not participate. -/
def derivedGroups (p : PyRegex) (caps : Caps) : List (Option String) :=
  (List.range p.groupCount).map (fun i => (capLookup caps (i + 1)).map String.mk)

/-- `match.groupdict()`: every declared name is present; a
non-participating group maps to `none` (Python `None`). -/
def groupdictOf (names : List (String × Nat)) (caps : Caps) : List (String × Option String) :=
  names.map (fun ni => (ni.1, (capLookup caps ni.2).map String.mk))

/-- In-place dictionary update (`groupdict[key] = v` for a present key). -/
def gdUpdate (gd : List (String × Option String)) (key : String) (v : Option String) :
    List (String × Option String) :=
  gd.map (fun kv => if kv.1 = key then (kv.1, v) else kv)

/-! ## Python `str.format`, `int`, and `str(bytes)` -/

/-- `str(x)` for the nullable strings flowing through the classifier:
Python renders `None` as the string `None`. -/
def pyShow : Option String → String
  | none => "None"
  | some s => s

/-- A parsed format template: literal runs, positional fields, named
fields.  Configured template strings are carried in this parsed form;
configuration-file parsing is an external collaborator. -/
inductive TmplPart
  | lit (s : String)
  | pos (i : Nat)
  | named (n : String)
deriving DecidableEq, Repr

def renderPart (groups : List (Option String)) (gd : List (String × Option String)) :
    TmplPart → String
  | .lit s => s
  | .pos i =>
    match groups.get? i with
    | some v => pyShow v
    | none => ""
  | .named n =>
    match List.lookup n gd with
    | some v => pyShow v
    | none => ""

/-- `template.format(*groups, **groupdict)` with positional and named
substitution.  (A field referencing a missing key raises in Python; no
configuration exercised here does that.) -/
def renderTemplate (t : List TmplPart) (groups : List (Option String))
    (gd : List (String × Option String)) : String :=
  String.join (t.map (renderPart groups gd))

def digitsToNat : List Char → Option Nat
  | [] => none
  | cs =>
    if cs.all Char.isDigit then
      some (cs.foldl (fun acc c => acc * 10 + (c.toNat - Char.toNat '0')) 0)
    else none

/-- Strip leading and trailing whitespace. -/
def pyStrip (cs : List Char) : List Char :=
  ((cs.dropWhile fun c => c.isWhitespace).reverse.dropWhile fun c => c.isWhitespace).reverse

/-- `int(s)`: strip whitespace, optional sign, decimal digits; `none`
models the `ValueError` path.  `pyIntOfValue none` models `int(None)`
raising `TypeError`. -/
def pyInt (s : String) : Option Int :=
  match pyStrip s.data with
  | [] => none
  | c :: rest =>
    if c = '-' then (digitsToNat rest).map (fun n => -(n : Int))
    else if c = '+' then (digitsToNat rest).map (fun n => (n : Int))
    else (digitsToNat (c :: rest)).map (fun n => (n : Int))

def pyIntOfValue : Option String → Option Int
  | none => none
  | some s => pyInt s

def pyBytesReprChar (c : Char) : List Char :=
  if c = '\\' then ['\\', '\\']
  else if c = '\n' then ['\\', 'n']
  else if c = '\t' then ['\\', 't']
  else if c = Char.ofNat 13 then ['\\', 'r']
  else if c = '\'' then ['\\', '\'']
  else [c]

/-- `str(b)` for a bytes object of printable ASCII plus the usual
escapes: the repr `b` prefix, single quotes, and escaped specials.
`init_build` applies its regex to this stringified form of the raw
command output, not to the decoded text. -/
def pyBytesRepr (s : List Char) : List Char :=
  'b' :: '\'' :: (s.flatMap pyBytesReprChar ++ ['\''])

/-! ## Data model: remote entities and references -/

/-- `create_reference()`: a lightweight (id, name) pair.  The testcase
name is nullable, so reference names are `Option String` throughout. -/
structure EntityRef where
  id : String
  name : Option String
deriving DecidableEq, Repr

structure Build where
  id : String
  name : String
deriving DecidableEq, Repr

structure Release where
  id : String
  name : String
  builds : List Build
deriving DecidableEq, Repr

structure Component where
  id : String
  name : String
deriving DecidableEq, Repr

structure Project where
  id : String
  name : String
  releases : List Release
  components : List Component
deriving DecidableEq, Repr

structure Testplan where
  id : String
  name : String
  project : EntityRef
  isprivate : Bool
  createdBy : String
deriving DecidableEq, Repr

structure Testcase where
  id : String
  projectId : String
  name : Option String
deriving DecidableEq, Repr

structure Testrun where
  id : String
  name : String
  testplanid : Option String
  project : EntityRef
  release : EntityRef
  build : EntityRef
  state : String
  runStarted : Int
deriving DecidableEq, Repr

def projRefOf (p : Project) : EntityRef := { id := p.id, name := some p.name }
def relRefOf (r : Release) : EntityRef := { id := r.id, name := some r.name }
def buildRefOf (b : Build) : EntityRef := { id := b.id, name := some b.name }
def compRefOf (c : Component) : EntityRef := { id := c.id, name := some c.name }
def tcRefOf (t : Testcase) : EntityRef := { id := t.id, name := t.name }
def trRefOf (t : Testrun) : EntityRef := { id := t.id, name := some t.name }

/-- The exception kinds raised by the script: `slickqa.SlickCommunicationError`,
the script's own `ConfigurationError`, and `re.error`. -/
inductive SlickErr
  | slickComm (msg : String)
  | configErr (msg : String)
  | reErr (msg : String)
deriving DecidableEq, Repr

def isConfigErrResult {α : Type} : Except SlickErr α → Bool
  | .error (.configErr _) => true
  | _ => false

def isSlickCommResult {α : Type} : Except SlickErr α → Bool
  | .error (.slickComm _) => true
  | _ => false

/-- The exception class name of a failed call, `none` on success. -/
def errKindName {α : Type} : Except SlickErr α → Option String
  | .error (.slickComm _) => some "SlickCommunicationError"
  | .error (.configErr _) => some "ConfigurationError"
  | .error (.reErr _) => some "re.error"
  | .ok _ => none

/-- The `build.regex` configuration value after the compile attempt of
`init_build`: a compiled pattern, or a string `re.compile` rejects. -/
inductive RegexCfg
  | valid (p : PyRegex)
  | invalid
deriving DecidableEq, Repr

/-- The `[Slick]` configuration section as consumed by the `Slick` class. -/
structure SlickConfig where
  url : String
  project : String
  release : String
  build : Option String
  buildCommand : Option String
  buildRegex : Option RegexCfg
  component : Option String
  testplan : Option String
deriving DecidableEq, Repr

/-- The `[Test]` configuration section as consumed by `CommandTester`.
The `result`, `reason`, `name` and `runlength` keys are the optional
template strings. -/
structure TestConfig where
  command : Option String
  outputRegex : Option PyRegex
  resultTemplate : Option (List TmplPart)
  reasonTemplate : Option (List TmplPart)
  nameTemplate : Option (List TmplPart)
  runlengthTemplate : Option (List TmplPart)
deriving DecidableEq, Repr

/-- The remote service's answers and id assignments for one run:
lookups are data, and each `create` call hands back the fresh id listed
here.  `projectLookup = .error _` models `findByName` raising
`SlickCommunicationError`. -/
structure World where
  projectLookup : Except Unit (Option Project)
  buildCmd : Except Int String
  testplans : List Testplan
  testcases : List Testcase
  freshReleaseId : String
  freshBuildId : String
  freshComponentId : String
  freshTestplanId : String
  freshTestrunId : String
  freshTestcaseId : String
deriving DecidableEq, Repr

/-- The state of a fully constructed `Slick` object: the Run Context. -/
structure SlickState where
  project : Project
  release : Release
  releaseref : EntityRef
  buildref : EntityRef
  component : Option Component
  componentref : Option EntityRef
  testplan : Option Testplan
  testrun : Testrun
deriving DecidableEq, Repr

/-! ## Context resolution (`Slick.__init__` and friends) -/

/-- `Slick.init_project`: a communication failure during `findByName` is
caught and logged, after which `self.project` is still `None`; both that
path and a plain not-found then raise `SlickCommunicationError`. -/
def init_project (lookup : Except Unit (Option Project)) (projectName url : String) :
    Except SlickErr Project :=
  match lookup with
  | .error _ =>
    .error (.slickComm ("Unable to find project with name " ++ projectName ++
      " on slick located at " ++ url))
  | .ok none =>
    .error (.slickComm ("Unable to find project with name " ++ projectName ++
      " on slick located at " ++ url))
  | .ok (some p) => .ok p

def findRelease (rs : List Release) (n : String) : Option Release :=
  rs.find? (fun r => r.name == n)

/-- `Slick.init_release`: scan the project's releases for the name; on a
hit take it, otherwise create one and append it to the local project's
release list.  Returns the chosen release, its reference, the (possibly
updated) project, and the number of create calls issued. -/
def init_release (proj : Project) (relName freshId : String) :
    Release × EntityRef × Project × Nat :=
  match findRelease proj.releases relName with
  | some r => (r, relRefOf r, proj, 0)
  | none =>
    let created : Release := { id := freshId, name := relName, builds := [] }
    (created, relRefOf created, { proj with releases := proj.releases ++ [created] }, 1)

def findBuild (bs : List Build) (n : String) : Option Build :=
  bs.find? (fun b => b.name == n)

/-- The find-or-create tail of `Slick.init_build` (the source does not
append the created build to the local release's build list). -/
def buildFindOrCreate (rel : Release) (buildNumber freshId : String) : EntityRef × Nat :=
  match findBuild rel.builds buildNumber with
  | some b => (buildRefOf b, 0)
  | none => (buildRefOf { id := freshId, name := buildNumber }, 1)

/-- The discovery part of `init_build`: a `CalledProcessError` is logged
and leaves the explicit build number in place; otherwise the pattern is
searched (`re.search`) against `str(output)`, and when it matches, a
declared `build` group overwrites the build number with its capture
(possibly `None`), while a pattern without that group only logs. -/
def extractBuildNumber (regex : PyRegex) (cmdResult : Except Int String)
    (build : Option String) : Option String :=
  match cmdResult with
  | .error _ => build
  | .ok out =>
    match reSearch regex.re (pyBytesRepr out.data) with
    | none => build
    | some caps =>
      match List.lookup "build" regex.names with
      | some i => (capLookup caps i).map String.mk
      | none => build

/-- The `build.regex` compile step of `init_build`: an absent key yields
no regex, a present invalid one raises `SlickCommunicationError`. -/
def compileBuildRegex : Option RegexCfg → Except SlickErr (Option PyRegex)
  | none => .ok none
  | some (.valid p) => .ok (some p)
  | some .invalid => .error (.slickComm "Regular expression is not valid")

/-- `Slick.init_build`: compile `build.regex` if present (an invalid one
raises `SlickCommunicationError`); reject the configuration shapes the
source rejects; run discovery when a command and a compiled regex are
both present; and fail with `SlickCommunicationError` if no build number
results, else find-or-create the build under the release. -/
def init_build (build command : Option String) (regexCfg : Option RegexCfg)
    (cmdResult : Except Int String) (rel : Release) (freshId : String) :
    Except SlickErr (EntityRef × Nat) :=
  match compileBuildRegex regexCfg with
  | .error e => .error e
  | .ok regex =>
    if (build.isNone && command.isNone) || (build.isSome && command.isSome && regex.isNone) then
      .error (.slickComm "You must either supply a build in the configuration, or use the build.command and build.regex.")
    else
      let buildNumber : Option String :=
        match command, regex with
        | some _, some p => extractBuildNumber p cmdResult build
        | _, _ => build
      match buildNumber with
      | none => .error (.slickComm "No build number was specified.")
      | some bn => .ok (buildFindOrCreate rel bn freshId)

def findComponent (cs : List Component) (n : String) : Option Component :=
  cs.find? (fun c => c.name == n)

/-- `Slick.init_component`: optional; find-or-create by name under the
project (the source does not append the created component locally). -/
def init_component (proj : Project) (compName : Option String) (freshId : String) :
    Option Component × Option EntityRef × Nat :=
  match compName with
  | none => (none, none, 0)
  | some nm =>
    match findComponent proj.components nm with
    | some c => (some c, some (compRefOf c), 0)
    | none =>
      let created : Component := { id := freshId, name := nm }
      (some created, some (compRefOf created), 1)

def findTestplan (tps : List Testplan) (pid n : String) : Option Testplan :=
  tps.find? (fun t => t.project.id == pid && t.name == n)

/-- `Slick.init_testplan`: optional; `findOne` scoped to the project, and
on absence create with `isprivate = False` and `createdBy =
slick-reporter`. -/
def init_testplan (tpName : Option String) (proj : Project) (tps : List Testplan)
    (freshId : String) : Option Testplan × Nat :=
  match tpName with
  | none => (none, 0)
  | some nm =>
    match findTestplan tps proj.id nm with
    | some t => (some t, 0)
    | none =>
      (some { id := freshId, name := nm, project := projRefOf proj,
              isprivate := false, createdBy := "slick-reporter" }, 1)

/-- `Slick.init_testrun`: a fresh testrun in RUNNING state with
`runStarted` set to the current epoch-milliseconds clock reading. -/
def init_testrun (proj : Project) (tp : Option Testplan) (relref buildref : EntityRef)
    (tStart : Int) (freshId : String) : Testrun :=
  { id := freshId,
    name :=
      match tp with
      | some t => "Testrun for testplan " ++ t.name
      | none => "Tests run from slick-reporter",
    testplanid := tp.map (fun t => t.id),
    project := projRefOf proj,
    release := relref,
    build := buildref,
    state := "RUNNING",
    runStarted := tStart }

/-- `Slick.__init__`: project, release, build, component, testplan,
testrun, in that order; the first failure aborts construction. -/
def slickInit (cfg : SlickConfig) (w : World) (tStart : Int) : Except SlickErr SlickState :=
  match init_project w.projectLookup cfg.project cfg.url with
  | .error e => .error e
  | .ok proj0 =>
    let (rel, relref, proj, _) := init_release proj0 cfg.release w.freshReleaseId
    match init_build cfg.build cfg.buildCommand cfg.buildRegex w.buildCmd rel w.freshBuildId with
    | .error e => .error e
    | .ok (buildref, _) =>
      let (comp, compref, _) := init_component proj cfg.component w.freshComponentId
      let (tp, _) := init_testplan cfg.testplan proj w.testplans w.freshTestplanId
      .ok { project := proj, release := rel, releaseref := relref, buildref := buildref,
            component := comp, componentref := compref, testplan := tp,
            testrun := init_testrun proj tp relref buildref tStart w.freshTestrunId }

/-- The update `Slick.finish_testrun` sends: the testrun id with
`runFinished` set to the current clock reading and state FINISHED. -/
structure FinishedRun where
  id : String
  runFinished : Int
  state : String
deriving DecidableEq, Repr

def finish_testrun (tr : Testrun) (tFinish : Int) : FinishedRun :=
  { id := tr.id, runFinished := tFinish, state := "FINISHED" }

/-! ## Result filing (`Slick.file_result`) -/

/-- The result record submitted for creation by `file_result`. -/
structure ResultRec where
  testrun : EntityRef
  testcase : EntityRef
  project : EntityRef
  release : EntityRef
  build : EntityRef
  component : Option EntityRef
  reason : Option String
  runlength : Int
  endTime : Int
  started : Int
  status : Option String
deriving DecidableEq, Repr

def findTestcase (tcs : List Testcase) (pid : String) (n : Option String) : Option Testcase :=
  tcs.find? (fun t => t.projectId == pid && t.name == n)

/-- `Slick.file_result`: find-or-create the testcase by name under the
project, then build the result from the Run Context's stored references;
`end` is a fresh clock reading and `started = end - runlength`.  Returns
the record and the number of testcase create calls (0 or 1). -/
def file_result (st : SlickState) (tcs : List Testcase) (freshTc : String)
    (name status reason : Option String) (runlength : Int) (fileTime : Int) :
    ResultRec × Nat :=
  let found := findTestcase tcs st.project.id name
  let test : Testcase :=
    match found with
    | some t => t
    | none => { id := freshTc, projectId := st.project.id, name := name }
  let creates : Nat :=
    match found with
    | some _ => 0
    | none => 1
  ({ testrun := trRefOf st.testrun,
     testcase := tcRefOf test,
     project := projRefOf st.project,
     release := st.releaseref,
     build := st.buildref,
     component := if st.component.isSome then st.componentref else none,
     reason := reason,
     runlength := runlength,
     endTime := fileTime,
     started := fileTime - runlength,
     status := status }, creates)

/-! ## Output classification (`CommandTester`) -/

/-- `CommandTester.__init__`: both `command` and `output.regex` must be
present in the `[Test]` section, else `ConfigurationError`. -/
def commandTesterInit (cfg : TestConfig) : Except SlickErr (String × PyRegex) :=
  match cfg.command, cfg.outputRegex with
  | some c, some p => .ok (c, p)
  | _, _ => .error (.configErr "Several required configurations were missing.")

/-- Status derivation: configured `result` template, else the `result`
group verbatim (possibly `None`), else `BROKEN_TEST`. -/
def deriveResult (cfg : TestConfig) (groups : List (Option String))
    (gd : List (String × Option String)) : Option String :=
  match cfg.resultTemplate with
  | some t => some (renderTemplate t groups gd)
  | none =>
    match List.lookup "result" gd with
    | some v => v
    | none => some "BROKEN_TEST"

/-- Lines 384-386 of the source: when the pattern declares a `reason`
group that did not participate in the match (`groupdict` holds `None`),
the dictionary entry is replaced in place by the synthesized string
before any reason rendering. -/
def synthReason (gd : List (String × Option String)) (result : Option String) :
    List (String × Option String) :=
  if List.lookup "reason" gd = some none then
    gdUpdate gd "reason" (some ("Output Indicated " ++ pyShow result))
  else gd

/-- Reason derivation: configured `reason` template (rendered over the
possibly-synthesized dictionary), else the `reason` group, else the
empty string. -/
def deriveReason (cfg : TestConfig) (groups : List (Option String))
    (gd : List (String × Option String)) : Option String :=
  match cfg.reasonTemplate with
  | some t => some (renderTemplate t groups gd)
  | none =>
    match List.lookup "reason" gd with
    | some v => v
    | none => some ""

/-- Name derivation: configured `name` template, else the `name` group,
else a literal embedding the executed command. -/
def deriveName (cfg : TestConfig) (command : String) (groups : List (Option String))
    (gd : List (String × Option String)) : Option String :=
  match cfg.nameTemplate with
  | some t => some (renderTemplate t groups gd)
  | none =>
    match List.lookup "name" gd with
    | some v => v
    | none => some ("Command " ++ command)

/-- Duration derivation: configured `runlength` template parsed as an
integer, else the `runlength` group parsed as an integer; any parse
failure (including `int(None)` for a non-participating group) falls back
to the elapsed time since the previous match. -/
def deriveRunlength (cfg : TestConfig) (groups : List (Option String))
    (gd : List (String × Option String)) (elapsed : Int) : Int :=
  match cfg.runlengthTemplate with
  | some t =>
    match pyInt (renderTemplate t groups gd) with
    | some n => n
    | none => elapsed
  | none =>
    match List.lookup "runlength" gd with
    | some v =>
      match pyIntOfValue v with
      | some n => n
      | none => elapsed
    | none => elapsed

/-- The fields `file_result` is called with for one matched line, plus
the new elapsed-time baseline. -/
structure Derived where
  name : Option String
  status : Option String
  reason : Option String
  runlength : Int
  newBegin : Int
deriving DecidableEq, Repr

/-- The body of `run_command`'s match branch (source lines 373-409):
`end` is the match-time clock reading; positional and named captures are
taken from the match; status, the reason synthesis, reason and name are
derived in source order; the elapsed baseline is reset to `end`
unconditionally before the duration override is attempted. -/
def deriveFields (cfg : TestConfig) (pat : PyRegex) (command : String)
    (begin lineNow : Int) (caps : Caps) : Derived :=
  let groups := derivedGroups pat caps
  let gd0 := groupdictOf pat.names caps
  let result := deriveResult cfg groups gd0
  let gd := synthReason gd0 result
  { name := deriveName cfg command groups gd,
    status := result,
    reason := deriveReason cfg groups gd,
    runlength := deriveRunlength cfg groups gd (lineNow - begin),
    newBegin := lineNow }

/-- One iteration of `run_command`'s line loop: apply the pattern
anchored at the start of the (decoded, stripped) line; a non-matching
line changes nothing; a matching line derives the fields and files one
result.  `tMatch` and `tFile` are the clock readings taken at the match
and inside `file_result`. -/
def processLine (cfg : TestConfig) (pat : PyRegex) (command : String) (st : SlickState)
    (tcs : List Testcase) (freshTc : String) (begin tMatch tFile : Int) (line : String) :
    Option (ResultRec × Nat) × Int :=
  match pyMatch pat line with
  | none => (none, begin)
  | some caps =>
    let d := deriveFields cfg pat command begin tMatch caps
    (some (file_result st tcs freshTc d.name d.status d.reason d.runlength tFile), d.newBegin)

/-- `CommandTester.run_command`'s loop over the decoded, stripped output
lines, each paired with its match-time and file-time clock readings;
`begin` starts at the process-spawn clock reading.  Returns the filed
results (with their testcase-create counts) and the final baseline. -/
def run_command (cfg : TestConfig) (pat : PyRegex) (command : String) (st : SlickState)
    (tcs : List Testcase) (freshTc : String) :
    Int → List (String × Int × Int) → List (ResultRec × Nat) × Int
  | begin, [] => ([], begin)
  | begin, (line, tMatch, tFile) :: rest =>
    match processLine cfg pat command st tcs freshTc begin tMatch tFile line with
    | (none, b2) => run_command cfg pat command st tcs freshTc b2 rest
    | (some fr, b2) =>
      let (rs, bF) := run_command cfg pat command st tcs freshTc b2 rest
      (fr :: rs, bF)

/-! ## `main`: try/except/finally -/

/-- Observable outcome of one `main` invocation: how many times
`finish_testrun` ran, the finalization update (if any), the process exit
status requested by an except clause (`none` = normal return), whether
the test command was spawned, and the filed results. -/
structure MainOutcome where
  finishCalls : Nat
  finishedRun : Option FinishedRun
  exitCode : Option Nat
  commandExecuted : Bool
  results : List (ResultRec × Nat)
deriving DecidableEq, Repr

/-- The `try/except/finally` of `main` (source lines 473-489):
`reporter` is assigned only when `Slick` construction completes, so the
`finally` block finalizes the testrun exactly when construction
completed, on every exit path; each caught exception kind calls
`sys.exit(1)`.  `lines` are the output lines the classifier consumed and
`runExc` an exception escaping `run_command` after them (if any). -/
def mainModel (scfg : SlickConfig) (tcfg : TestConfig) (w : World)
    (lines : List (String × Int × Int)) (runExc : Option SlickErr)
    (tStart begin0 tFinish : Int) : MainOutcome :=
  match slickInit scfg w tStart with
  | .error _ =>
    { finishCalls := 0, finishedRun := none, exitCode := some 1,
      commandExecuted := false, results := [] }
  | .ok st =>
    match commandTesterInit tcfg with
    | .error _ =>
      { finishCalls := 1, finishedRun := some (finish_testrun st.testrun tFinish),
        exitCode := some 1, commandExecuted := false, results := [] }
    | .ok (cmd, pat) =>
      let (rs, _) := run_command tcfg pat cmd st w.testcases w.freshTestcaseId begin0 lines
      { finishCalls := 1, finishedRun := some (finish_testrun st.testrun tFinish),
        exitCode :=
          match runExc with
          | none => none
          | some _ => some 1,
        commandExecuted := true, results := rs }

/-! ## Concrete fixtures: the documented configuration and a demo world -/

/-- The extraction pattern of the shipped default configuration. -/
def outputPatternRe : Re :=
  .seq (.ch '[') (.seq (.grp 1 (.starL .any)) (.seq (.ch ']')
    (.seq (.opt (.seq (.ch '[') (.seq (.grp 2 (.starL .any)) (.ch ']'))))
    (.seq (reLit " | ") (.seq (.grp 3 (.starL .any))
      (.seq (reLit " | ") (.seq (.grp 4 (.starL .any))
        (.seq (reLit " | ElapsedMS: ") (.grp 5 reDigits)))))))))

def outputPattern : PyRegex :=
  { re := outputPatternRe,
    names := [("result", 1), ("reason", 2), ("name", 3), ("counts", 4), ("runlength", 5)],
    groupCount := 5 }

/-- The default `build.regex`. -/
def buildPattern : PyRegex :=
  { re := .seq (.starG .any) (.seq (.ch '-') (.grp 1 reDigits)),
    names := [("build", 1)], groupCount := 1 }

/-- A one-group pattern with no `runlength` or `reason` group. -/
def smallPattern : PyRegex :=
  { re := .seq (.ch '[') (.seq (.grp 1 (.starL .any)) (.ch ']')),
    names := [("result", 1)], groupCount := 1 }

def demoBuild7 : Build := { id := "b7", name := "7" }

def demoRelease : Release := { id := "r6", name := "6", builds := [demoBuild7] }

def emptyRelease : Release := { id := "r0", name := "0", builds := [] }

def demoComponent : Component := { id := "c1", name := "Search" }

def demoProject : Project :=
  { id := "p1", name := "Another Project",
    releases := [demoRelease], components := [demoComponent] }

def demoTestplan : Testplan :=
  { id := "tp1", name := "Search Query Automation", project := projRefOf demoProject,
    isprivate := false, createdBy := "slick-reporter" }

def demoWorld : World :=
  { projectLookup := .ok (some demoProject),
    buildCmd := .ok "1.0.0-7\n",
    testplans := [demoTestplan],
    testcases := [],
    freshReleaseId := "nr1", freshBuildId := "nb1", freshComponentId := "nc1",
    freshTestplanId := "ntp1", freshTestrunId := "ntr1", freshTestcaseId := "ntc1" }

def demoSlickConfig : SlickConfig :=
  { url := "http://localhost:8080",
    project := "Another Project",
    release := "6",
    build := none,
    buildCommand := some "echo 1.0.0-7",
    buildRegex := some (.valid buildPattern),
    component := some "Search",
    testplan := some "Search Query Automation" }

/-- The name and reason templates of the default configuration. -/
def demoNameTemplate : List TmplPart := [.lit "Search ", .named "name"]

def demoReasonTemplate : List TmplPart := [.named "reason", .lit ": ", .named "counts"]

def demoTestConfig : TestConfig :=
  { command := some "cat example-output.txt",
    outputRegex := some outputPattern,
    resultTemplate := none,
    reasonTemplate := some demoReasonTemplate,
    nameTemplate := some demoNameTemplate,
    runlengthTemplate := none }

def c1Line : String := "[PASS] | Search should return results | 3 items | ElapsedMS: 450"

/-- The state `slickInit demoSlickConfig demoWorld 100` produces: every
configured entity already exists remotely, so all stored references are
to the pre-existing entities. -/
def demoState : SlickState :=
  { project := demoProject,
    release := demoRelease,
    releaseref := { id := "r6", name := some "6" },
    buildref := { id := "b7", name := some "7" },
    component := some demoComponent,
    componentref := some { id := "c1", name := some "Search" },
    testplan := some demoTestplan,
    testrun :=
      { id := "ntr1",
        name := "Testrun for testplan Search Query Automation",
        testplanid := some "tp1",
        project := { id := "p1", name := some "Another Project" },
        release := { id := "r6", name := some "6" },
        build := { id := "b7", name := some "7" },
        state := "RUNNING",
        runStarted := 100 } }

/-- demoWorld with the project lookup raising a communication error. -/
def commFailWorld : World :=
  { demoWorld with projectLookup := .error () }

/-- The default test configuration with the required `command` key removed. -/
def missingCommandConfig : TestConfig :=
  { demoTestConfig with command := none }

/-- Classifier configuration with no duration source configured. -/
def c8cfgFallback : TestConfig :=
  { command := some "cmd", outputRegex := some smallPattern, resultTemplate := none,
    reasonTemplate := none, nameTemplate := none, runlengthTemplate := none }

/-- Classifier configuration whose `runlength` template renders a
non-integer. -/
def c8cfgBadTemplate : TestConfig :=
  { c8cfgFallback with runlengthTemplate := some [.lit "abc"] }

/-- Classifier configuration whose reason template is exactly the
`reason` field. -/
def c9cfg : TestConfig :=
  { command := some "cmd", outputRegex := some outputPattern, resultTemplate := none,
    reasonTemplate := some [.named "reason"], nameTemplate := none,
    runlengthTemplate := none }

/-- A line on which the optional reason group does not participate. -/
def c9LineA : String := "[PASS] | n | c | ElapsedMS: 5"

/-- A line on which the reason group captures the empty string. -/
def c9LineB : String := "[PASS][] | n | c | ElapsedMS: 5"

/-- Captures of `c9LineA` (most recent first; no entry for group 2). -/
def c9CapsA : Caps :=
  [(5, ['5']), (4, ['c']), (3, ['n']), (1, ['P', 'A', 'S', 'S'])]

/-- Captures of `c9LineB` (group 2 captured the empty string). -/
def c9CapsB : Caps :=
  [(5, ['5']), (4, ['c']), (3, ['n']), (2, []), (1, ['P', 'A', 'S', 'S'])]

/-! ## Helper lemmas -/

theorem lookup_groupdictOf (names : List (String × Nat)) (caps : Caps) (key : String) :
    List.lookup key (groupdictOf names caps) =
      (List.lookup key names).map (fun i => (capLookup caps i).map String.mk) := by
  induction names with
  | nil => rfl
  | cons hd tl ih =>
    obtain ⟨k1, i1⟩ := hd
    simp only [groupdictOf, List.map_cons, List.lookup_cons]
    cases h : key == k1
    · simpa [groupdictOf] using ih
    · rfl

theorem lookup_gdUpdate_ne (gd : List (String × Option String)) (key key2 : String)
    (v : Option String) (h : key2 ≠ key) :
    List.lookup key2 (gdUpdate gd key v) = List.lookup key2 gd := by
  induction gd with
  | nil => rfl
  | cons hd tl ih =>
    obtain ⟨k1, v1⟩ := hd
    by_cases hk : k1 = key
    · have hne : (key2 == k1) = false := beq_false_of_ne (fun hh => h (hh.trans hk))
      simp only [gdUpdate, List.map_cons, if_pos hk, List.lookup_cons, hne]
      simpa [gdUpdate] using ih
    · simp only [gdUpdate, List.map_cons, if_neg hk, List.lookup_cons]
      cases h2 : key2 == k1
      · simpa [gdUpdate] using ih
      · rfl

theorem lookup_synthReason_ne (gd : List (String × Option String)) (res : Option String)
    (key : String) (h : key ≠ "reason") :
    List.lookup key (synthReason gd res) = List.lookup key gd := by
  unfold synthReason
  split
  · exact lookup_gdUpdate_ne gd "reason" key _ h
  · rfl

theorem slickInit_testrun_facts (scfg : SlickConfig) (w : World) (tStart : Int)
    (st : SlickState) (h : slickInit scfg w tStart = .ok st) :
    st.testrun.runStarted = tStart ∧ st.testrun.state = "RUNNING" := by
  unfold slickInit at h
  repeat' split at h
  all_goals try exact (Except.noConfusion h)
  all_goals injection h with h2
  all_goals subst h2
  all_goals exact ⟨rfl, rfl⟩

theorem deriveFields_newBegin (cfg : TestConfig) (pat : PyRegex) (command : String)
    (begin lineNow : Int) (caps : Caps) :
    (deriveFields cfg pat command begin lineNow caps).newBegin = lineNow := rfl

theorem deriveFields_runlength_fallback (cfg : TestConfig) (pat : PyRegex)
    (h1 : cfg.runlengthTemplate = none)
    (h2 : List.lookup "runlength" pat.names = none)
    (command : String) (begin lineNow : Int) (caps : Caps) :
    (deriveFields cfg pat command begin lineNow caps).runlength = lineNow - begin := by
  have hgd : List.lookup "runlength" (groupdictOf pat.names caps) = none := by
    rw [lookup_groupdictOf, h2]; rfl
  have hgd2 : List.lookup "runlength"
      (synthReason (groupdictOf pat.names caps)
        (deriveResult cfg (derivedGroups pat caps) (groupdictOf pat.names caps))) = none := by
    rw [lookup_synthReason_ne _ _ _ (by decide), hgd]
  simp [deriveFields, deriveRunlength, h1, hgd2]

theorem file_result_runlength (st : SlickState) (tcs : List Testcase) (freshTc : String)
    (name status reason : Option String) (rl tFile : Int) :
    (file_result st tcs freshTc name status reason rl tFile).1.runlength = rl := rfl

/-! ## Claims -/

/-- C1, counterexample: on the documented line, pattern and templates,
the classifier files a result whose name, status and duration are as the
claim states, but whose reason is the synthesized
`Output Indicated PASS: 3 items` — not `: 3 items` as claimed — because
the non-participating reason group is replaced by the synthesized
default before the reason template is rendered. -/
theorem c1_counterexample :
    ((processLine demoTestConfig outputPattern "cat example-output.txt" demoState [] "ntc1"
        0 1000 1001 c1Line).1.map
      (fun p => (p.1.testcase.name, p.1.status, p.1.reason, p.1.runlength))) =
      some (some "Search Search should return results", some "PASS",
        some "Output Indicated PASS: 3 items", 450) ∧
    ¬ (((processLine demoTestConfig outputPattern "cat example-output.txt" demoState [] "ntc1"
        0 1000 1001 c1Line).1.map (fun p => p.1.reason)) = some (some ": 3 items")) := by
  exact ⟨by decide, by decide⟩

/-- C1, amended: for the output line
`[PASS] | Search should return results | 3 items | ElapsedMS: 450`, the
documented extraction pattern, name template `Search {name}` and reason
template `{reason}: {counts}`, `run_command` files exactly one result,
with name `Search Search should return results`, status `PASS`, reason
`Output Indicated PASS: 3 items` (the absent reason group is replaced by
the synthesized default before template rendering), and duration 450. -/
theorem c1_amended :
    ((run_command demoTestConfig outputPattern "cat example-output.txt" demoState [] "ntc1"
        0 [(c1Line, 1000, 1001)]).1.map
      (fun p => (p.1.testcase.name, p.1.status, p.1.reason, p.1.runlength))) =
      [(some "Search Search should return results", some "PASS",
        some "Output Indicated PASS: 3 items", 450)] := by
  decide

/-- C2: whenever `Slick` construction completed (the test run was
created), the `finally` block of `main` finalizes the test run exactly
once — whatever the tester configuration, the classified lines, and any
exception escaping the classification — marking it FINISHED with the
finalization clock reading; and with a nondecreasing clock the
finalization timestamp is at least the run's start timestamp. -/
theorem c2_finalization (scfg : SlickConfig) (tcfg : TestConfig) (w : World)
    (lines : List (String × Int × Int)) (runExc : Option SlickErr)
    (tStart begin0 tFinish : Int) (st : SlickState)
    (hok : slickInit scfg w tStart = .ok st) (hmono : tStart ≤ tFinish) :
    (mainModel scfg tcfg w lines runExc tStart begin0 tFinish).finishCalls = 1 ∧
    (mainModel scfg tcfg w lines runExc tStart begin0 tFinish).finishedRun =
      some { id := st.testrun.id, runFinished := tFinish, state := "FINISHED" } ∧
    st.testrun.runStarted ≤ tFinish := by
  have hfacts := slickInit_testrun_facts scfg w tStart st hok
  refine ⟨?_, ?_, hfacts.1 ▸ hmono⟩ <;>
  · unfold mainModel
    rw [hok]
    cases htc : commandTesterInit tcfg <;> simp [finish_testrun]

/-- C2 witness: on the demo configuration and world every entity
resolves, and the outcome facts hold at the concrete timestamps. -/
theorem c2_witness :
    (mainModel demoSlickConfig demoTestConfig demoWorld [] none 100 150 2000).finishCalls = 1 ∧
    (mainModel demoSlickConfig demoTestConfig demoWorld [] none 100 150 2000).finishedRun =
      some { id := "ntr1", runFinished := 2000, state := "FINISHED" } ∧
    (100 : Int) ≤ 2000 := by
  have h := c2_finalization demoSlickConfig demoTestConfig demoWorld [] none 100 150 2000
    demoState (by decide) (by decide)
  exact ⟨h.1, h.2.1, h.2.2⟩

/-- C3: each name-scoped resolution (release under project, build under
release, component under project, test plan under project, test case
under project) issues no create call and returns the existing entity's
reference when the name is found, and issues exactly one create call
returning the created entity's reference when it is absent; and
`file_result` builds every result from the Run Context's stored
references. -/
theorem c3_find_or_create
    (proj : Project) (relName freshRel : String) (r : Release)
    (rel : Release) (bn freshB : String) (b : Build)
    (compName freshC : String) (c : Component)
    (tps : List Testplan) (tpName freshT : String) (tp : Testplan)
    (tcs : List Testcase) (nm : Option String) (tc : Testcase) (freshTc : String)
    (st : SlickState) (status reason : Option String) (rl tFile : Int) :
    ((findRelease proj.releases relName = some r →
        init_release proj relName freshRel = (r, relRefOf r, proj, 0)) ∧
      (findRelease proj.releases relName = none →
        init_release proj relName freshRel =
          ({ id := freshRel, name := relName, builds := [] },
            relRefOf { id := freshRel, name := relName, builds := [] },
            { proj with releases :=
                proj.releases ++ [{ id := freshRel, name := relName, builds := [] }] }, 1))) ∧
    ((findBuild rel.builds bn = some b →
        buildFindOrCreate rel bn freshB = (buildRefOf b, 0)) ∧
      (findBuild rel.builds bn = none →
        buildFindOrCreate rel bn freshB = (buildRefOf { id := freshB, name := bn }, 1))) ∧
    ((findComponent proj.components compName = some c →
        init_component proj (some compName) freshC = (some c, some (compRefOf c), 0)) ∧
      (findComponent proj.components compName = none →
        init_component proj (some compName) freshC =
          (some { id := freshC, name := compName },
            some (compRefOf { id := freshC, name := compName }), 1))) ∧
    ((findTestplan tps proj.id tpName = some tp →
        init_testplan (some tpName) proj tps freshT = (some tp, 0)) ∧
      (findTestplan tps proj.id tpName = none →
        init_testplan (some tpName) proj tps freshT =
          (some { id := freshT, name := tpName, project := projRefOf proj,
                  isprivate := false, createdBy := "slick-reporter" }, 1))) ∧
    ((findTestcase tcs st.project.id nm = some tc →
        (file_result st tcs freshTc nm status reason rl tFile).2 = 0 ∧
        (file_result st tcs freshTc nm status reason rl tFile).1.testcase = tcRefOf tc) ∧
      (findTestcase tcs st.project.id nm = none →
        (file_result st tcs freshTc nm status reason rl tFile).2 = 1 ∧
        (file_result st tcs freshTc nm status reason rl tFile).1.testcase =
          tcRefOf { id := freshTc, projectId := st.project.id, name := nm })) ∧
    ((file_result st tcs freshTc nm status reason rl tFile).1.release = st.releaseref ∧
      (file_result st tcs freshTc nm status reason rl tFile).1.build = st.buildref ∧
      (file_result st tcs freshTc nm status reason rl tFile).1.testrun = trRefOf st.testrun ∧
      (file_result st tcs freshTc nm status reason rl tFile).1.project = projRefOf st.project) := by
  refine ⟨⟨?_, ?_⟩, ⟨?_, ?_⟩, ⟨?_, ?_⟩, ⟨?_, ?_⟩, ⟨?_, ?_⟩, rfl, rfl, rfl, rfl⟩ <;>
    intro h <;>
    simp [init_release, buildFindOrCreate, init_component, init_testplan, file_result, h]

/-- C3 witness: on the demo project all five entity kinds resolve to the
pre-existing entities with zero creates; with absent names each issues
exactly one create. -/
theorem c3_witness :
    init_release demoProject "6" "nr1" = (demoRelease, relRefOf demoRelease, demoProject, 0) ∧
    init_release demoProject "9" "nr1" =
      ({ id := "nr1", name := "9", builds := [] },
        relRefOf { id := "nr1", name := "9", builds := [] },
        { demoProject with releases :=
            demoProject.releases ++ [{ id := "nr1", name := "9", builds := [] }] }, 1) ∧
    buildFindOrCreate demoRelease "7" "nb1" = (buildRefOf demoBuild7, 0) ∧
    buildFindOrCreate demoRelease "8" "nb1" =
      (buildRefOf { id := "nb1", name := "8" }, 1) ∧
    init_component demoProject (some "Search") "nc1" =
      (some demoComponent, some (compRefOf demoComponent), 0) ∧
    init_component demoProject (some "Browse") "nc1" =
      (some { id := "nc1", name := "Browse" },
        some (compRefOf { id := "nc1", name := "Browse" }), 1) ∧
    init_testplan (some "Search Query Automation") demoProject [demoTestplan] "ntp1" =
      (some demoTestplan, 0) ∧
    init_testplan (some "Other Plan") demoProject [demoTestplan] "ntp1" =
      (some { id := "ntp1", name := "Other Plan", project := projRefOf demoProject,
              isprivate := false, createdBy := "slick-reporter" }, 1) ∧
    (file_result demoState [] "ntc1" (some "T") (some "PASS") (some "") 5 100).2 = 1 ∧
    (file_result demoState
        [{ id := "tc1", projectId := "p1", name := some "T" }] "ntc1"
        (some "T") (some "PASS") (some "") 5 100).2 = 0 ∧
    (file_result demoState [] "ntc1" (some "T") (some "PASS") (some "") 5 100).1.release =
      demoState.releaseref ∧
    (file_result demoState [] "ntc1" (some "T") (some "PASS") (some "") 5 100).1.build =
      demoState.buildref := by
  have hA := c3_find_or_create demoProject "6" "nr1" demoRelease demoRelease "7" "nb1"
    demoBuild7 "Search" "nc1" demoComponent [demoTestplan] "Search Query Automation" "ntp1"
    demoTestplan [{ id := "tc1", projectId := "p1", name := some "T" }] (some "T")
    { id := "tc1", projectId := "p1", name := some "T" } "ntc1" demoState
    (some "PASS") (some "") 5 100
  have hB := c3_find_or_create demoProject "9" "nr1" demoRelease demoRelease "8" "nb1"
    demoBuild7 "Browse" "nc1" demoComponent [demoTestplan] "Other Plan" "ntp1"
    demoTestplan [] (some "T") { id := "tc1", projectId := "p1", name := some "T" } "ntc1"
    demoState (some "PASS") (some "") 5 100
  refine ⟨hA.1.1 (by decide), hB.1.2 (by decide), hA.2.1.1 (by decide), hB.2.1.2 (by decide),
    hA.2.2.1.1 (by decide), hB.2.2.1.2 (by decide), hA.2.2.2.1.1 (by decide),
    hB.2.2.2.1.2 (by decide), (hB.2.2.2.2.1.2 (by decide)).1,
    (hA.2.2.2.2.1.1 (by decide)).1, hB.2.2.2.2.2.1, hB.2.2.2.2.2.2.1⟩

/-- C4, counterexample: with neither an explicit build id nor a
discovery command configured, `init_build` raises
`SlickCommunicationError`, not `ConfigurationError` as the claim
states. -/
theorem c4_counterexample :
    init_build none none none (.ok "") emptyRelease "fid" =
      .error (.slickComm "You must either supply a build in the configuration, or use the build.command and build.regex.") ∧
    isConfigErrResult (init_build none none none (.ok "") emptyRelease "fid") = false ∧
    isSlickCommResult (init_build none none none (.ok "") emptyRelease "fid") = true := by
  exact ⟨rfl, rfl, rfl⟩

/-- C4, amended: build resolution failures are raised as
`SlickCommunicationError` (not `ConfigurationError`): when neither an
explicit build id nor a discovery command is configured (whatever the
regex key holds), when an explicit id and a discovery command are
configured without a valid extraction regex (key absent, or present but
invalid), and when the discovery pattern lacks a `build` named group
with no explicit build id configured, `init_build` aborts with
`SlickCommunicationError`. -/
theorem c4_amended (regexArg : Option RegexCfg) (cmdRes : Except Int String)
    (rel : Release) (fid b cmd : String) (p : PyRegex) :
    isSlickCommResult (init_build none none regexArg cmdRes rel fid) = true ∧
    init_build (some b) (some cmd) none cmdRes rel fid =
      .error (.slickComm "You must either supply a build in the configuration, or use the build.command and build.regex.") ∧
    init_build (some b) (some cmd) (some .invalid) cmdRes rel fid =
      .error (.slickComm "Regular expression is not valid") ∧
    (List.lookup "build" p.names = none →
      init_build none (some cmd) (some (.valid p)) cmdRes rel fid =
        .error (.slickComm "No build number was specified.")) := by
  refine ⟨?_, rfl, rfl, ?_⟩
  · cases regexArg with
    | none => rfl
    | some rc => cases rc <;> rfl
  · intro h
    have hbn : extractBuildNumber p cmdRes none = none := by
      unfold extractBuildNumber
      cases cmdRes with
      | error rc => rfl
      | ok out =>
        simp only [h]
        cases reSearch p.re (pyBytesRepr out.data) <;> rfl
    simp [init_build, compileBuildRegex, hbn]

/-- C4 witness: a pattern declaring only a `result` group leaves the
build unresolved and discovery aborts with `SlickCommunicationError`. -/
theorem c4_witness :
    isSlickCommResult (init_build none none none (.ok "x") demoRelease "f") = true ∧
    init_build (some "5") (some "cmd") none (.ok "x") demoRelease "f" =
      .error (.slickComm "You must either supply a build in the configuration, or use the build.command and build.regex.") ∧
    init_build (some "5") (some "cmd") (some .invalid) (.ok "x") demoRelease "f" =
      .error (.slickComm "Regular expression is not valid") ∧
    init_build none (some "cmd") (some (.valid smallPattern)) (.ok "x") demoRelease "f" =
      .error (.slickComm "No build number was specified.") := by
  have h := c4_amended none (.ok "x") demoRelease "f" "5" "cmd" smallPattern
  exact ⟨h.1, h.2.1, h.2.2.1, h.2.2.2 (by decide)⟩

/-- C5: with discovery command output `1.0.0-7` and pattern
`.*-(?P<build>\d+)`, `init_build` resolves the build identifier to the
string `7` — the pattern is applied with search semantics to the
stringified raw bytes — and then finds the existing build named `7` (or
creates one when absent). -/
theorem c5_build_extraction :
    extractBuildNumber buildPattern (.ok "1.0.0-7") none = some "7" ∧
    init_build none (some "echo 1.0.0-7") (some (.valid buildPattern)) (.ok "1.0.0-7")
      demoRelease "nb1" = .ok (buildRefOf demoBuild7, 0) ∧
    init_build none (some "echo 1.0.0-7") (some (.valid buildPattern)) (.ok "1.0.0-7")
      emptyRelease "nb1" = .ok (buildRefOf { id := "nb1", name := "7" }, 1) := by
  exact ⟨by decide, by decide, by decide⟩

/-- C6, counterexample: project lookup does not distinguish its two
failure modes — a communication failure and a missing project both raise
`SlickCommunicationError` — and fatal error kinds do not get distinct
exit statuses: a communication-failure run and a missing-test-key
(`ConfigurationError`) run both exit with status 1. -/
theorem c6_counterexample :
    errKindName (init_project (.error ()) "Another Project" "http://localhost:8080") =
      errKindName (init_project (.ok none) "Another Project" "http://localhost:8080") ∧
    errKindName (init_project (.ok none) "Another Project" "http://localhost:8080") =
      some "SlickCommunicationError" ∧
    (mainModel demoSlickConfig demoTestConfig commFailWorld [] none 100 150 2000).exitCode =
      some 1 ∧
    (mainModel demoSlickConfig missingCommandConfig demoWorld [] none 100 150 2000).exitCode =
      some 1 := by
  exact ⟨rfl, rfl, by decide, by decide⟩

/-- C6, amended: both project-lookup failure modes raise
`SlickCommunicationError` with the same message (a communication failure
is logged, after which the not-found check raises), and `main`'s exit
status is 1 for every fatal error kind (the exit code is always absent
or 1). -/
theorem c6_amended (projectName url : String) (scfg : SlickConfig) (tcfg : TestConfig)
    (w : World) (lines : List (String × Int × Int)) (runExc : Option SlickErr)
    (t0 b0 t1 : Int) :
    init_project (.error ()) projectName url =
      .error (.slickComm ("Unable to find project with name " ++ projectName ++
        " on slick located at " ++ url)) ∧
    init_project (.ok none) projectName url =
      .error (.slickComm ("Unable to find project with name " ++ projectName ++
        " on slick located at " ++ url)) ∧
    ((mainModel scfg tcfg w lines runExc t0 b0 t1).exitCode = none ∨
      (mainModel scfg tcfg w lines runExc t0 b0 t1).exitCode = some 1) := by
  refine ⟨rfl, rfl, ?_⟩
  unfold mainModel
  cases slickInit scfg w t0 with
  | error e => simp
  | ok st =>
    cases commandTesterInit tcfg with
    | error e => simp
    | ok cp =>
      cases runExc with
      | none => simp
      | some e => simp

/-- C7: the extraction pattern is applied anchored at the start of each
line, and a non-matching line produces no result, issues no remote
calls, and leaves the elapsed-time baseline unchanged. -/
theorem c7_nonmatching (cfg : TestConfig) (pat : PyRegex) (command : String)
    (st : SlickState) (tcs : List Testcase) (freshTc : String)
    (begin tMatch tFile : Int) (line : String)
    (h : pyMatch pat line = none) :
    processLine cfg pat command st tcs freshTc begin tMatch tFile line = (none, begin) := by
  unfold processLine
  rw [h]

/-- C7 witness: a line matching the pattern only at offset 2 is rejected
by the anchored match (while an unanchored search would accept it), and
processing it files nothing and keeps the baseline at 17. -/
theorem c7_witness :
    pyMatch outputPattern
      "xx[PASS] | Search should return results | 3 items | ElapsedMS: 450" = none ∧
    (reSearch outputPattern.re
      ("xx[PASS] | Search should return results | 3 items | ElapsedMS: 450".data)).isSome =
      true ∧
    processLine demoTestConfig outputPattern "cat example-output.txt" demoState [] "ntc1"
      17 1000 1001 "xx[PASS] | Search should return results | 3 items | ElapsedMS: 450" =
      (none, 17) := by
  exact ⟨by decide, by decide,
    c7_nonmatching demoTestConfig outputPattern "cat example-output.txt" demoState [] "ntc1"
      17 1000 1001 _ (by decide)⟩

/-- C8: on every matched line the elapsed-time baseline is reset to the
match time regardless of the duration source; with no runlength template
and no runlength group the duration is the elapsed time since the
previous baseline; a configured runlength value that fails integer
parsing falls back to that elapsed time; and over two consecutive
matched lines without a configured duration source the durations are the
first match time minus the spawn baseline and the second match time
minus the first. -/
theorem c8_duration (cfg : TestConfig) (pat : PyRegex) (command : String)
    (begin lineNow : Int) (caps : Caps) (line : String)
    (_hm : pyMatch pat line = some caps) :
    (deriveFields cfg pat command begin lineNow caps).newBegin = lineNow ∧
    (cfg.runlengthTemplate = none → List.lookup "runlength" pat.names = none →
      (deriveFields cfg pat command begin lineNow caps).runlength = lineNow - begin) ∧
    (∀ t, cfg.runlengthTemplate = some t →
      pyInt (renderTemplate t (derivedGroups pat caps)
        (synthReason (groupdictOf pat.names caps)
          (deriveResult cfg (derivedGroups pat caps) (groupdictOf pat.names caps)))) = none →
      (deriveFields cfg pat command begin lineNow caps).runlength = lineNow - begin) ∧
    (∀ (st : SlickState) (tcs : List Testcase) (freshTc : String) (l1 l2 : String)
        (cps1 cps2 : Caps) (begin0 t1 u1 t2 u2 : Int),
      cfg.runlengthTemplate = none → List.lookup "runlength" pat.names = none →
      pyMatch pat l1 = some cps1 → pyMatch pat l2 = some cps2 →
      ((run_command cfg pat command st tcs freshTc begin0
          [(l1, t1, u1), (l2, t2, u2)]).1.map (fun p => p.1.runlength)) =
        [t1 - begin0, t2 - t1]) := by
  refine ⟨rfl, ?_, ?_, ?_⟩
  · intro h1 h2
    exact deriveFields_runlength_fallback cfg pat h1 h2 command begin lineNow caps
  · intro t ht hp
    simp [deriveFields, deriveRunlength, ht, hp]
  · intro st tcs freshTc l1 l2 cps1 cps2 begin0 t1 u1 t2 u2 h1 h2 hm1 hm2
    simp only [run_command, processLine, hm1, hm2]
    simp [file_result_runlength, deriveFields_newBegin,
      deriveFields_runlength_fallback cfg pat h1 h2]

/-- C8 witness: with no duration source, a match at time 300 after a
baseline of 100 gets duration 200 and resets the baseline to 300; a
runlength template rendering `abc` falls back to the same 200; and two
matches at times 300 and 500 from baseline 100 get durations 200 and
200. -/
theorem c8_witness :
    (deriveFields c8cfgFallback smallPattern "cmd" 100 300
      [(1, ['P', 'A', 'S', 'S'])]).newBegin = 300 ∧
    (deriveFields c8cfgFallback smallPattern "cmd" 100 300
      [(1, ['P', 'A', 'S', 'S'])]).runlength = 200 ∧
    (deriveFields c8cfgBadTemplate smallPattern "cmd" 100 300
      [(1, ['P', 'A', 'S', 'S'])]).runlength = 200 ∧
    ((run_command c8cfgFallback smallPattern "cmd" demoState [] "t" 100
        [("[PASS]", 300, 301), ("[FAIL]", 500, 501)]).1.map
      (fun p => p.1.runlength)) = [200, 200] := by
  have hA := c8_duration c8cfgFallback smallPattern "cmd" 100 300
    [(1, ['P', 'A', 'S', 'S'])] "[PASS]" (by decide)
  have hB := c8_duration c8cfgBadTemplate smallPattern "cmd" 100 300
    [(1, ['P', 'A', 'S', 'S'])] "[PASS]" (by decide)
  refine ⟨hA.1, ?_, ?_, ?_⟩
  · have h2 := hA.2.1 rfl (by decide)
    omega
  · have h2 := hB.2.2.1 [TmplPart.lit "abc"] rfl (by decide)
    omega
  · have h2 := hA.2.2.2 demoState [] "t" "[PASS]" "[FAIL]"
      [(1, ['P', 'A', 'S', 'S'])] [(1, ['F', 'A', 'I', 'L'])] 100 300 301 500 501
      rfl (by decide) (by decide) (by decide)
    norm_num at h2
    exact h2

/-- C9: on a matched line whose pattern declares a `reason` group, if
the group did not participate (groupdict holds `None`) the entry is
replaced by `Output Indicated <status>` before reason rendering, and a
configured reason template is rendered over the updated dictionary;
whereas a group that captured the empty string is left untouched, so the
template is rendered over the original dictionary. -/
theorem c9_reason_synthesis (cfg : TestConfig) (pat : PyRegex) (command : String)
    (begin lineNow : Int) (line : String) (caps : Caps) (tmpl : List TmplPart)
    (_hm : pyMatch pat line = some caps)
    (ht : cfg.reasonTemplate = some tmpl) :
    (List.lookup "reason" (groupdictOf pat.names caps) = some none →
      synthReason (groupdictOf pat.names caps)
          (deriveResult cfg (derivedGroups pat caps) (groupdictOf pat.names caps)) =
        gdUpdate (groupdictOf pat.names caps) "reason"
          (some ("Output Indicated " ++ pyShow (deriveResult cfg (derivedGroups pat caps)
            (groupdictOf pat.names caps)))) ∧
      (deriveFields cfg pat command begin lineNow caps).reason =
        some (renderTemplate tmpl (derivedGroups pat caps)
          (gdUpdate (groupdictOf pat.names caps) "reason"
            (some ("Output Indicated " ++ pyShow (deriveResult cfg (derivedGroups pat caps)
              (groupdictOf pat.names caps))))))) ∧
    (List.lookup "reason" (groupdictOf pat.names caps) = some (some "") →
      synthReason (groupdictOf pat.names caps)
          (deriveResult cfg (derivedGroups pat caps) (groupdictOf pat.names caps)) =
        groupdictOf pat.names caps ∧
      (deriveFields cfg pat command begin lineNow caps).reason =
        some (renderTemplate tmpl (derivedGroups pat caps) (groupdictOf pat.names caps))) := by
  constructor
  · intro h
    have hs : synthReason (groupdictOf pat.names caps)
        (deriveResult cfg (derivedGroups pat caps) (groupdictOf pat.names caps)) =
        gdUpdate (groupdictOf pat.names caps) "reason"
          (some ("Output Indicated " ++ pyShow (deriveResult cfg (derivedGroups pat caps)
            (groupdictOf pat.names caps)))) := by
      unfold synthReason
      rw [if_pos h]
    exact ⟨hs, by simp [deriveFields, deriveReason, ht, hs]⟩
  · intro h
    have hs : synthReason (groupdictOf pat.names caps)
        (deriveResult cfg (derivedGroups pat caps) (groupdictOf pat.names caps)) =
        groupdictOf pat.names caps := by
      unfold synthReason
      rw [if_neg (by simp [h])]
    exact ⟨hs, by simp [deriveFields, deriveReason, ht, hs]⟩

/-- C9 witness: with reason template `{reason}`, the line whose reason
group is absent renders the synthesized `Output Indicated PASS`, and the
line whose reason group captured the empty string renders empty. -/
theorem c9_witness :
    (deriveFields c9cfg outputPattern "cmd" 0 10 c9CapsA).reason =
      some "Output Indicated PASS" ∧
    (deriveFields c9cfg outputPattern "cmd" 0 10 c9CapsB).reason = some "" := by
  have hA := c9_reason_synthesis c9cfg outputPattern "cmd" 0 10 c9LineA c9CapsA
    [TmplPart.named "reason"] (by decide) rfl
  have hB := c9_reason_synthesis c9cfg outputPattern "cmd" 0 10 c9LineB c9CapsB
    [TmplPart.named "reason"] (by decide) rfl
  constructor
  · rw [(hA.1 (by decide)).2]
    decide
  · rw [(hB.2 (by decide)).2]
    decide

/-- C10: with a required `[Test]` key (`command` or `output.regex`)
missing, the `ConfigurationError` arises only after context resolution
completed — the test run already exists in RUNNING state — the test
command is never executed, no result is filed, the empty test run is
finalized exactly once, and the process exits with status 1. -/
theorem c10_missing_test_config (scfg : SlickConfig) (tcfg : TestConfig) (w : World)
    (lines : List (String × Int × Int)) (runExc : Option SlickErr)
    (tStart begin0 tFinish : Int) (st : SlickState)
    (hok : slickInit scfg w tStart = .ok st)
    (hmissing : tcfg.command = none ∨ tcfg.outputRegex = none) :
    commandTesterInit tcfg =
      .error (.configErr "Several required configurations were missing.") ∧
    (mainModel scfg tcfg w lines runExc tStart begin0 tFinish).commandExecuted = false ∧
    (mainModel scfg tcfg w lines runExc tStart begin0 tFinish).results = [] ∧
    (mainModel scfg tcfg w lines runExc tStart begin0 tFinish).exitCode = some 1 ∧
    (mainModel scfg tcfg w lines runExc tStart begin0 tFinish).finishCalls = 1 ∧
    (mainModel scfg tcfg w lines runExc tStart begin0 tFinish).finishedRun =
      some { id := st.testrun.id, runFinished := tFinish, state := "FINISHED" } ∧
    st.testrun.state = "RUNNING" := by
  have htc : commandTesterInit tcfg =
      .error (.configErr "Several required configurations were missing.") := by
    unfold commandTesterInit
    rcases hmissing with h | h
    · rw [h]
    · rw [h]
      cases tcfg.command <;> rfl
  have hfacts := slickInit_testrun_facts scfg w tStart st hok
  refine ⟨htc, ?_, ?_, ?_, ?_, ?_, hfacts.2⟩ <;>
  · unfold mainModel
    rw [hok, htc]
    try simp [finish_testrun]

/-- C10 witness: the default configuration with its `command` key
removed, against the demo world. -/
theorem c10_witness :
    commandTesterInit missingCommandConfig =
      .error (.configErr "Several required configurations were missing.") ∧
    (mainModel demoSlickConfig missingCommandConfig demoWorld [] none 100 150 2000).commandExecuted =
      false ∧
    (mainModel demoSlickConfig missingCommandConfig demoWorld [] none 100 150 2000).results =
      [] ∧
    (mainModel demoSlickConfig missingCommandConfig demoWorld [] none 100 150 2000).exitCode =
      some 1 ∧
    (mainModel demoSlickConfig missingCommandConfig demoWorld [] none 100 150 2000).finishCalls =
      1 ∧
    (mainModel demoSlickConfig missingCommandConfig demoWorld [] none 100 150 2000).finishedRun =
      some { id := "ntr1", runFinished := 2000, state := "FINISHED" } ∧
    demoState.testrun.state = "RUNNING" := by
  have h := c10_missing_test_config demoSlickConfig missingCommandConfig demoWorld [] none
    100 150 2000 demoState (by decide) (Or.inl rfl)
  exact ⟨h.1, h.2.1, h.2.2.1, h.2.2.2.1, h.2.2.2.2.1, h.2.2.2.2.2.1, h.2.2.2.2.2.2⟩

end SlickReporter
